import Mathlib

/-!
Shallow embedding of the Expoandes restaurant backend (Node/Express + Mongoose).
Statuses and enum-like fields are modelled as the literal strings the JavaScript
source uses; JS numbers appearing in money/quantity arithmetic are modelled as
`Int` (the claims only exercise ring arithmetic, `max` and comparisons); the
revenue-projection code, which divides, is modelled over `Rat`.  Timestamps
(`Date` values) are modelled as `Nat` milliseconds supplied by the caller, since
`new Date()` is impure.  A Mongo document collection read by `findByIdAndUpdate`
with `$inc` on `quantity` is modelled as a map `Nat → Int` from document id to
quantity.
-/

set_option autoImplicit false

namespace Expoandes

/-- One line of an order (`orderItemSchema` in src/models/Order.js). -/
structure OrderItem where
  inventoryItem : Nat
  name : String
  quantity : Int
  unitPrice : Int
  cost : Int
  totalPrice : Int
  deriving DecidableEq

/-- Embedded customer sub-document of an order. -/
structure Customer where
  name : String
  phone : Option String := none
  email : Option String := none
  deriving DecidableEq

/-- An order document (`orderSchema` in src/models/Order.js).  `createdAt` and
the other timestamps are `Nat` milliseconds; `Option` fields are the schema
fields without a default that may be unset. -/
structure Order where
  orderNumber : Option String := none
  customer : Customer
  type : String := "dine-in"
  tableNumber : Option String := none
  items : List OrderItem
  subtotal : Int := 0
  tax : Int := 0
  discount : Int := 0
  total : Int := 0
  status : String := "pending"
  paymentStatus : String := "pending"
  paymentMethod : String := "cash"
  notes : Option String := none
  estimatedTime : Int := 30
  actualTime : Option Int := none
  restaurant : Nat
  createdBy : Nat
  assignedTo : Option Nat := none
  completedAt : Option Nat := none
  inventoryDecrementedAt : Option Nat := none
  isActive : Bool := true
  createdAt : Nat := 0
  deriving DecidableEq

/-- `orderSchema.pre('save')` (src/models/Order.js lines 151-174): recompute
every line's `totalPrice`, the `subtotal`, the `total`, and fill in a generated
`orderNumber` when absent.  The generated number uses `Math.random`, so it is
passed in as `genNumber`. -/
def orderPreSave (o : Order) (genNumber : String) : Order :=
  let items := o.items.map fun it => { it with totalPrice := it.quantity * it.unitPrice }
  let subtotal := items.foldl (fun sum it => sum + it.totalPrice) 0
  let total := subtotal + o.tax - o.discount
  let orderNumber := match o.orderNumber with
    | some n => some n
    | none => some genNumber
  { o with items := items, subtotal := subtotal, total := total, orderNumber := orderNumber }

/-- `InventoryItem.findByIdAndUpdate(id, \x7b $inc: \x7b quantity: delta \x7d \x7d)`:
adds `delta` to the quantity of the document with the given id. -/
def mongoIncQuantity (inv : Nat → Int) (id : Nat) (delta : Int) : Nat → Int :=
  fun j => if j = id then inv j + delta else inv j

/-- The decrement loop of `updateStatus` (src/models/Order.js lines 227-232):
for each line, `$inc` the referenced inventory quantity by minus the ordered
quantity. -/
def decrementInventory (inv : Nat → Int) (items : List OrderItem) : Nat → Int :=
  items.foldl (fun acc it => mongoIncQuantity acc it.inventoryItem (-it.quantity)) inv

/-- The restore loop of `updateStatus` (src/models/Order.js lines 243-248):
for each line, `$inc` the referenced inventory quantity by the ordered
quantity. -/
def restoreInventory (inv : Nat → Int) (items : List OrderItem) : Nat → Int :=
  items.foldl (fun acc it => mongoIncQuantity acc it.inventoryItem it.quantity) inv

/-- Total ordered quantity that the lines of `items` charge against inventory
document `j` (sum of `quantity` over the lines referencing `j`). -/
def linesQty (items : List OrderItem) (j : Nat) : Int :=
  ((items.filter fun it => it.inventoryItem == j).map fun it => it.quantity).sum

/-- `orderSchema.methods.updateStatus` (src/models/Order.js lines 220-255),
returning the saved order together with the inventory collection after the
`$inc` updates.  `now` stands for `new Date()` and `genNumber` for the random
order number the final `save`'s pre-hook would generate. -/
def updateStatus (o : Order) (inv : Nat → Int) (newStatus : String) (now : Nat)
    (genNumber : String) : Order × (Nat → Int) :=
  let o1 := { o with status := newStatus }
  let step1 : Order × (Nat → Int) :=
    if (newStatus = "preparing" ∨ newStatus = "delivered") ∧ o1.inventoryDecrementedAt = none then
      ({ o1 with inventoryDecrementedAt := some now }, decrementInventory inv o1.items)
    else (o1, inv)
  let o2 := step1.1
  let o3 :=
    if newStatus = "delivered" ∧ o2.completedAt = none then
      { o2 with completedAt := some now,
                actualTime := some (Int.fdiv ((now : Int) - (o2.createdAt : Int)) (1000 * 60)) }
    else o2
  let step2 : Order × (Nat → Int) :=
    if newStatus = "cancelled" then
      let inner : Order × (Nat → Int) :=
        if o3.inventoryDecrementedAt ≠ none then
          ({ o3 with inventoryDecrementedAt := none }, restoreInventory step1.2 o3.items)
        else (o3, step1.2)
      ({ inner.1 with isActive := false }, inner.2)
    else (o3, step1.2)
  (orderPreSave step2.1 genNumber, step2.2)

/-- Embedded supplier sub-document of an inventory item. -/
structure Supplier where
  name : Option String := none
  contact : Option String := none
  email : Option String := none
  deriving DecidableEq

/-- An inventory item document (`inventoryItemSchema` in
src/models/InventoryItem.js). -/
structure InventoryItem where
  id : Nat
  name : String
  description : Option String := none
  category : String := "Otros"
  sku : Option String := none
  quantity : Int := 0
  minQuantity : Int := 5
  maxQuantity : Int := 1000
  costPrice : Int
  sellingPrice : Int
  unit : String := "unidad"
  supplier : Supplier := {}
  restaurant : Nat
  isActive : Bool := true
  lastUpdated : Nat := 0
  totalValue : Int := 0
  isLowStock : Bool := false
  deriving DecidableEq

/-- `inventoryItemSchema.pre('save')` (src/models/InventoryItem.js lines
104-115): recompute `totalValue`, `isLowStock` and `lastUpdated`. -/
def inventoryItemPreSave (i : InventoryItem) (now : Nat) : InventoryItem :=
  { i with totalValue := i.quantity * i.costPrice,
           isLowStock := decide (i.quantity ≤ i.minQuantity),
           lastUpdated := now }

/-- `inventoryItemSchema.methods.updateQuantity` (src/models/InventoryItem.js
lines 152-162), followed by the pre-save hook that `this.save()` runs. -/
def updateQuantity (i : InventoryItem) (newQuantity : Int) (operation : String)
    (now : Nat) : InventoryItem :=
  let i1 :=
    if operation = "add" then { i with quantity := i.quantity + newQuantity }
    else if operation = "subtract" then { i with quantity := max 0 (i.quantity - newQuantity) }
    else { i with quantity := max 0 newQuantity }
  inventoryItemPreSave i1 now

/-- One entry of the `items` array of a POST /api/orders request body. -/
structure ReqItem where
  inventoryItem : Nat
  quantity : Int
  deriving DecidableEq

/-- The two client errors the order-creation item loop can produce
(src/routes/orders.js lines 183-195), carrying the data the 400 message
interpolates. -/
inductive CreateOrderError where
  | notFound (id : Nat)
  | insufficientStock (name : String) (available : Int)
  deriving DecidableEq

/-- `InventoryItem.findOne(\x7b _id, restaurant, isActive: true \x7d)` used by the
order-creation loop: first document matching id, tenant and active flag. -/
def findInventoryItem (db : List InventoryItem) (r : Nat) (id : Nat) : Option InventoryItem :=
  db.find? fun inv => inv.id == id && inv.restaurant == r && inv.isActive

/-- The validation loop of POST /api/orders (src/routes/orders.js lines
176-205): walk the requested items in order; fail on the first missing/inactive
item or the first line whose quantity exceeds stock; otherwise build the order
lines with the inventory item's prices. -/
def buildOrderItems (db : List InventoryItem) (r : Nat) :
    List ReqItem → Except CreateOrderError (List OrderItem)
  | [] => .ok []
  | it :: rest =>
    match findInventoryItem db r it.inventoryItem with
    | none => .error (.notFound it.inventoryItem)
    | some inv =>
      if inv.quantity < it.quantity then
        .error (.insufficientStock inv.name inv.quantity)
      else
        match buildOrderItems db r rest with
        | .error e => .error e
        | .ok tail =>
          .ok ({ inventoryItem := inv.id, name := inv.name, quantity := it.quantity,
                 unitPrice := inv.sellingPrice, cost := inv.costPrice,
                 totalPrice := inv.sellingPrice * it.quantity } :: tail)

/-- Non-item fields of a POST /api/orders request body. -/
structure CreateOrderBody where
  customer : Customer
  type : String
  tableNumber : Option String := none
  items : List ReqItem
  paymentMethod : String := "cash"
  notes : Option String := none
  deriving DecidableEq

/-- POST /api/orders (src/routes/orders.js lines 161-246) after request
validation: on success the created order (saved, so the pre-save hook has run)
is persisted; on failure nothing is.  The handler never writes to the inventory
collection, so the resulting collection is returned unchanged in both branches
(second component). -/
def postOrder (db : List InventoryItem) (r : Nat) (userId : Nat)
    (body : CreateOrderBody) (now : Nat) (genNumber : String) :
    Except CreateOrderError Order × List InventoryItem :=
  match buildOrderItems db r body.items with
  | .error e => (.error e, db)
  | .ok orderItems =>
    (.ok (orderPreSave
      { customer := body.customer, type := body.type, tableNumber := body.tableNumber,
        items := orderItems, paymentMethod := body.paymentMethod, notes := body.notes,
        restaurant := r, createdBy := userId, createdAt := now } genNumber), db)

/-- A requested line is bad when the referenced inventory item cannot be found
(in the tenant, active) or the requested quantity exceeds its stock. -/
def badLine (db : List InventoryItem) (r : Nat) (it : ReqItem) : Prop :=
  findInventoryItem db r it.inventoryItem = none ∨
    ∃ inv, findInventoryItem db r it.inventoryItem = some inv ∧ inv.quantity < it.quantity

/-- One expense sub-document of a cash close (src/models/CashClose.js lines
60-79). -/
structure Expense where
  description : String
  amount : Int
  category : String := "other"
  receipt : Option String := none
  deriving DecidableEq

/-- The `sales` sub-document of a cash close.  `total` has no schema default;
before the first close it is simply 0 in this model (the operations the claims
exercise always assign it before reading it). -/
structure Sales where
  cash : Int := 0
  card : Int := 0
  transfer : Int := 0
  total : Int := 0
  deriving DecidableEq

/-- A cash-close document (`cashCloseSchema` in src/models/CashClose.js). -/
structure CashClose where
  date : Nat
  shift : String
  openingCash : Int
  openedBy : Nat
  closedBy : Option Nat := none
  closingCash : Option Int := none
  expectedCash : Option Int := none
  difference : Option Int := none
  sales : Sales := {}
  expenses : List Expense := []
  totalExpenses : Int := 0
  netSales : Int := 0
  status : String := "open"
  notes : String := ""
  verifiedBy : Option Nat := none
  verifiedAt : Option Nat := none
  restaurant : Nat
  isActive : Bool := true
  deriving DecidableEq

/-- `expenses.reduce((sum, expense) => sum + expense.amount, 0)`. -/
def sumExpenseAmounts (expenses : List Expense) : Int :=
  expenses.foldl (fun sum e => sum + e.amount) 0

/-- `cashCloseSchema.pre('save')` (src/models/CashClose.js lines 125-133):
recompute `totalExpenses` and `netSales`. -/
def cashClosePreSave (c : CashClose) : CashClose :=
  let totalExpenses := sumExpenseAmounts c.expenses
  { c with totalExpenses := totalExpenses,
           netSales := c.sales.total - totalExpenses }

/-- The `closingData` argument of `closeCash`.  `expenses` and `notes` may be
absent (`closingData.expenses || []`, `closingData.notes || ''`). -/
structure ClosingData where
  closingCash : Int
  cardSales : Int
  totalSalesFromOrders : Int
  expenses : Option (List Expense) := none
  notes : Option String := none
  deriving DecidableEq

/-- `cashCloseSchema.methods.closeCash` (src/models/CashClose.js lines
183-216), followed by the pre-save hook that `this.save()` runs.  Note the
`difference` field is assigned twice: first `(closingCash + cardSales) −
totalSystemSales`, then overwritten with `closingCash − expectedCash`. -/
def closeCash (c : CashClose) (closingData : ClosingData) (closedBy : Nat) : CashClose :=
  let c1 := { c with closingCash := some closingData.closingCash,
                     sales := { c.sales with card := closingData.cardSales },
                     expenses := closingData.expenses.getD [],
                     notes := closingData.notes.getD "",
                     closedBy := some closedBy,
                     status := "closed" }
  let totalReportedSales := closingData.closingCash + c1.sales.card
  let totalSystemSales := closingData.totalSalesFromOrders
  let c2 := { c1 with difference := some (totalReportedSales - totalSystemSales) }
  let c3 := { c2 with sales := { c2.sales with total := totalSystemSales } }
  let c4 := { c3 with sales := { c3.sales with cash := totalSystemSales - c3.sales.card } }
  let c5 := { c4 with totalExpenses := sumExpenseAmounts c4.expenses }
  let expectedCashVal := c5.openingCash + c5.sales.cash - c5.totalExpenses
  let c6 := { c5 with expectedCash := some expectedCashVal }
  let c7 := { c6 with difference := some (closingData.closingCash - expectedCashVal) }
  cashClosePreSave c7

/-- `cashCloseSchema.methods.verifyCashClose` (src/models/CashClose.js lines
219-225), followed by the pre-save hook. -/
def verifyCashClose (c : CashClose) (verifiedBy : Nat) (now : Nat) : CashClose :=
  cashClosePreSave
    { c with verifiedBy := some verifiedBy, verifiedAt := some now, status := "verified" }

/-- `cashCloseSchema.methods.restoreCashClose` (src/models/CashClose.js lines
234-247), followed by the pre-save hook. -/
def restoreCashClose (c : CashClose) : CashClose :=
  cashClosePreSave
    { c with status := "open",
             closingCash := none,
             closedBy := none,
             verifiedBy := none,
             verifiedAt := none,
             sales := { c.sales with card := 0, total := 0, cash := 0 },
             difference := none,
             expectedCash := some c.openingCash }

/-- The day's system sales used by PUT /api/cash-close/:id/close
(src/unnamed/part_004 lines 281-288): sum of `total` over the restaurant's
active delivered orders created inside the day window. -/
def deliveredTotal (orders : List Order) (r : Nat) (startOfDay endOfDay : Nat) : Int :=
  (orders.filter fun o =>
      o.restaurant == r && startOfDay ≤ o.createdAt && o.createdAt ≤ endOfDay &&
        o.isActive && o.status == "delivered").foldl
    (fun sum o => sum + o.total) 0

/-- Request body of PUT /api/cash-close/:id/close after destructuring
(`expenses = []` default already applied; `notes` may still be absent). -/
structure CloseBody where
  closingCash : Int
  cardSales : Int
  expenses : List Expense := []
  notes : Option String := none
  deriving DecidableEq

/-- PUT /api/cash-close/:id/close (src/unnamed/part_004 lines 253-297) for an
already-found cash close: reject unless the status is `open`, otherwise compute
the day's delivered-order total and run `closeCash`. -/
def closeCashRoute (c : CashClose) (orders : List Order) (r : Nat)
    (startOfDay endOfDay : Nat) (body : CloseBody) (userId : Nat) :
    Except String CashClose :=
  if c.status ≠ "open" then .error "El cierre de caja no está abierto"
  else
    let totalSalesFromOrders := deliveredTotal orders r startOfDay endOfDay
    .ok (closeCash c
      { closingCash := body.closingCash, cardSales := body.cardSales,
        totalSalesFromOrders := totalSalesFromOrders,
        expenses := some body.expenses, notes := body.notes } userId)

/-- PUT /api/cash-close/:id/verify (src/unnamed/part_004 lines 330-350) for an
already-found cash close: reject unless the status is `closed`. -/
def verifyCashCloseRoute (c : CashClose) (userId : Nat) (now : Nat) :
    Except String CashClose :=
  if c.status ≠ "closed" then
    .error "El cierre de caja debe estar cerrado para ser verificado"
  else .ok (verifyCashClose c userId now)

/-- PUT /api/cash-close/:id/restore (src/unnamed/part_004 lines 459-479) for an
already-found cash close: reject when the status is already `open`. -/
def restoreCashCloseRoute (c : CashClose) : Except String CashClose :=
  if c.status = "open" then .error "El cierre de caja ya está abierto"
  else .ok (restoreCashClose c)

/-- The stored document after a route handler ran: the handler's saved document
on success, the untouched original when the handler returned a client error
before any write. -/
def storedAfter (c : CashClose) (r : Except String CashClose) : CashClose :=
  match r with
  | .ok c1 => c1
  | .error _ => c

/-- One point of the historical daily-revenue series fed to
`calculateProjections` (the aggregation rows of GET /analytics/projections). -/
structure ProjPoint where
  totalRevenue : Rat
  deriving DecidableEq

/-- Result object of `calculateProjections`.  `slope` is absent on the two
early returns. -/
structure Projections where
  nextPeriod : Rat
  trend : String
  confidence : String
  slope : Option Rat := none
  deriving DecidableEq

/-- JavaScript `Math.round`: floor of x + 1/2 (halves round toward +∞). -/
def jsRound (q : Rat) : Rat := ((q + 1/2).floor : Int)

/-- `calculateProjections` (src/routes/analytics.js lines 467-525): ordinary
least-squares linear regression over the revenue series, with a trailing-7
trend classification and a residual-variance confidence label.  `period` is an
argument of the JavaScript function but is never read.  `y.length - 7` uses
truncated `Nat` subtraction, matching the source's `Math.max(0, y.length - 7)`. -/
def calculateProjections (data : List ProjPoint) (period : String) : Projections :=
  if data.length < 2 then
    { nextPeriod := 0, trend := "stable", confidence := "low" }
  else
    let n : Rat := data.length
    let x : List Rat := (List.range data.length).map fun i => (i : Rat)
    let y : List Rat := data.map fun d => d.totalRevenue
    let sumX := x.foldl (fun a b => a + b) 0
    let sumY := y.foldl (fun a b => a + b) 0
    let sumXY := (x.zip y).foldl (fun sum p => sum + p.1 * p.2) 0
    let sumXX := x.foldl (fun sum xi => sum + xi * xi) 0
    let denominator := n * sumXX - sumX * sumX
    if denominator = 0 then
      { nextPeriod := y.foldl (fun a b => a + b) 0 / n, trend := "stable", confidence := "low" }
    else
      let slope := (n * sumXY - sumX * sumY) / denominator
      let intercept := (sumY - slope * sumX) / n
      let recent := y.drop (y.length - 7)
      let recentAvg := recent.foldl (fun a b => a + b) 0 / ((min 7 y.length : Nat) : Rat)
      let olderDataEndIndex := y.length - 7
      let olderData := y.take olderDataEndIndex
      let olderAvg :=
        if olderData.length > 0 then olderData.foldl (fun a b => a + b) 0 / ((olderData.length : Nat) : Rat)
        else 0
      let trend :=
        if olderAvg > 0 then
          if recentAvg > olderAvg * (11/10) then "increasing"
          else if recentAvg < olderAvg * (9/10) then "decreasing"
          else "stable"
        else "stable"
      let nextPeriod := max 0 (slope * n + intercept)
      let variance :=
        ((y.zip x).foldl (fun sum p => sum + (p.1 - (slope * p.2 + intercept)) ^ 2) 0) / n
      let confidence :=
        if variance < 10000 then "high" else if variance < 50000 then "medium" else "low"
      { nextPeriod := jsRound nextPeriod, trend := trend, confidence := confidence,
        slope := some (jsRound (slope * 100) / 100) }

/-- The behaviour the specification ascribes to the degenerate cases: the
simple average of the series' revenues.  (Spec-worded definition, to be
compared with what `calculateProjections` actually returns.) -/
def specSimpleAverage (data : List ProjPoint) : Rat :=
  (data.map fun d => d.totalRevenue).sum / (data.length : Rat)

/-! Concrete documents used to instantiate the theorems below. -/

/-- A sample customer. -/
def sampleCustomer : Customer := { name := "Ana" }

/-- A sample order line: two units at price 5. -/
def sampleOrderItem : OrderItem :=
  { inventoryItem := 1, name := "Cafe", quantity := 2, unitPrice := 5, cost := 2, totalPrice := 10 }

/-- A sample pending order holding `sampleOrderItem`. -/
def sampleOrder : Order :=
  { customer := sampleCustomer, items := [sampleOrderItem], restaurant := 1, createdBy := 7,
    createdAt := 50 }

/-- A sample delivered active order in restaurant 1, created at time 50, with
total 10. -/
def sampleDeliveredOrder : Order :=
  { customer := sampleCustomer, items := [sampleOrderItem], restaurant := 1, createdBy := 7,
    createdAt := 50, status := "delivered", subtotal := 10, total := 10 }

/-- A sample inventory collection state: every document has quantity 10. -/
def sampleInv : Nat → Int := fun _ => 10

/-- A sample open cash close. -/
def sampleOpenCashClose : CashClose :=
  { date := 0, shift := "morning", openingCash := 100, openedBy := 7, restaurant := 1 }

/-- The sample cash close in `verified` status. -/
def sampleVerifiedCashClose : CashClose := { sampleOpenCashClose with status := "verified" }

/-- A sample close request body. -/
def sampleCloseBody : CloseBody :=
  { closingCash := 120, cardSales := 30,
    expenses := [{ description := "gas", amount := 5 }] }

/-- A sample inventory document: item 1, 3 in stock, in restaurant 1. -/
def sampleDbItem : InventoryItem :=
  { id := 1, name := "Cafe", quantity := 3, costPrice := 2, sellingPrice := 5, restaurant := 1 }

/-- A sample one-item inventory database. -/
def sampleDb : List InventoryItem := [sampleDbItem]

/-- A sample order-creation body asking for 5 units of item 1 (more than the 3
in stock in `sampleDb`). -/
def sampleBadBody : CreateOrderBody :=
  { customer := sampleCustomer, type := "dine-in", items := [{ inventoryItem := 1, quantity := 5 }] }

/-- A sample inventory item at exactly its minimum quantity. -/
def sampleLowItem : InventoryItem :=
  { id := 2, name := "Leche", quantity := 5, minQuantity := 5, costPrice := 2, sellingPrice := 4,
    restaurant := 1 }

/-- A one-point revenue series. -/
def singlePoint : List ProjPoint := [{ totalRevenue := 10 }]

/-! Helper lemmas about the folds the JavaScript `reduce` calls embed to. -/

/-- A left fold accumulating `f` over a list equals the initial value plus the
sum of the mapped list. -/
theorem foldl_add_map {α : Type} (f : α → Int) (l : List α) (init : Int) :
    l.foldl (fun sum a => sum + f a) init = init + (l.map f).sum := by
  induction l generalizing init with
  | nil => simp
  | cons a t ih => simp [List.foldl_cons, ih]; ring

/-- `linesQty` on a cons: the head contributes exactly when it references `j`. -/
theorem linesQty_cons (it : OrderItem) (t : List OrderItem) (j : Nat) :
    linesQty (it :: t) j =
      (if it.inventoryItem = j then it.quantity else 0) + linesQty t j := by
  by_cases h : it.inventoryItem = j <;> simp [linesQty, List.filter_cons, h]

/-- Pointwise effect of the decrement loop: document `j` loses the total
quantity the order's lines charge against it. -/
theorem decrementInventory_apply (inv : Nat → Int) (items : List OrderItem) (j : Nat) :
    decrementInventory inv items j = inv j - linesQty items j := by
  induction items generalizing inv with
  | nil => simp [decrementInventory, linesQty]
  | cons it t ih =>
    have step : decrementInventory inv (it :: t) =
        decrementInventory (mongoIncQuantity inv it.inventoryItem (-it.quantity)) t := rfl
    rw [step, ih, linesQty_cons]
    by_cases h : it.inventoryItem = j
    · simp [mongoIncQuantity, h]
      ring
    · simp [mongoIncQuantity, h, Ne.symm h]

/-- Pointwise effect of the restore loop: document `j` gains the total
quantity the order's lines charge against it. -/
theorem restoreInventory_apply (inv : Nat → Int) (items : List OrderItem) (j : Nat) :
    restoreInventory inv items j = inv j + linesQty items j := by
  induction items generalizing inv with
  | nil => simp [restoreInventory, linesQty]
  | cons it t ih =>
    have step : restoreInventory inv (it :: t) =
        restoreInventory (mongoIncQuantity inv it.inventoryItem it.quantity) t := rfl
    rw [step, ih, linesQty_cons]
    by_cases h : it.inventoryItem = j
    · simp [mongoIncQuantity, h]
      ring
    · simp [mongoIncQuantity, h, Ne.symm h]

/-- C7: for every order, after every save, each line's `totalPrice` equals
`quantity × unitPrice`, `subtotal` equals the sum of the line `totalPrice`s,
and `total` equals `subtotal + tax − discount` (the pre-save hook recomputes
them regardless of which operation triggered the save). -/
theorem order_totals_invariant (o : Order) (g : String) :
    (∀ it ∈ (orderPreSave o g).items, it.totalPrice = it.quantity * it.unitPrice) ∧
    (orderPreSave o g).subtotal = ((orderPreSave o g).items.map fun it => it.totalPrice).sum ∧
    (orderPreSave o g).total =
      (orderPreSave o g).subtotal + (orderPreSave o g).tax - (orderPreSave o g).discount := by
  refine ⟨?_, ?_, rfl⟩
  · intro it hit
    simp only [orderPreSave, List.mem_map] at hit
    obtain ⟨a, _, rfl⟩ := hit
    rfl
  · show ((o.items.map _).foldl _ 0) = _
    rw [foldl_add_map (fun it : OrderItem => it.totalPrice)]
    simp [orderPreSave]

/-- Witness for `order_totals_invariant` at a concrete order. -/
theorem order_totals_invariant_witness :
    (orderPreSave sampleOrder "251011001").subtotal =
      ((orderPreSave sampleOrder "251011001").items.map fun it => it.totalPrice).sum ∧
    ({ sampleOrderItem with totalPrice := 10 } : OrderItem) ∈
      (orderPreSave sampleOrder "251011001").items ∧
    ({ sampleOrderItem with totalPrice := 10 } : OrderItem).totalPrice =
      ({ sampleOrderItem with totalPrice := 10 } : OrderItem).quantity *
        ({ sampleOrderItem with totalPrice := 10 } : OrderItem).unitPrice :=
  ⟨(order_totals_invariant sampleOrder "251011001").2.1, by decide,
    (order_totals_invariant sampleOrder "251011001").1 _ (by decide)⟩

/-- C8: after every save an inventory item's `totalValue` equals
`quantity × costPrice` and `isLowStock` equals `quantity ≤ minQuantity`; in
particular an item with quantity 5 and minQuantity 5 is low-stock, and after
an `add 10` update it has quantity 15 and is not low-stock. -/
theorem inventory_derived_fields (i : InventoryItem) (now now1 now2 : Nat) :
    (inventoryItemPreSave i now).totalValue = i.quantity * i.costPrice ∧
    (inventoryItemPreSave i now).isLowStock = decide (i.quantity ≤ i.minQuantity) ∧
    (inventoryItemPreSave sampleLowItem now1).isLowStock = true ∧
    (updateQuantity (inventoryItemPreSave sampleLowItem now1) 10 "add" now2).quantity = 15 ∧
    (updateQuantity (inventoryItemPreSave sampleLowItem now1) 10 "add" now2).isLowStock
      = false := by
  refine ⟨rfl, rfl, rfl, ?_, ?_⟩ <;>
    simp [updateQuantity, inventoryItemPreSave, sampleLowItem]

/-- C10: `updateQuantity` never yields a negative quantity for non-negative
input: `subtract` clamps at 0, `set` clamps at 0, `add` adds. -/
theorem updateQuantity_clamps (i : InventoryItem) (n : Int) (now : Nat)
    (hq : 0 ≤ i.quantity) (hn : 0 ≤ n) :
    (updateQuantity i n "subtract" now).quantity = max 0 (i.quantity - n) ∧
    (updateQuantity i n "set" now).quantity = max 0 n ∧
    (updateQuantity i n "add" now).quantity = i.quantity + n ∧
    0 ≤ (updateQuantity i n "subtract" now).quantity ∧
    0 ≤ (updateQuantity i n "set" now).quantity ∧
    0 ≤ (updateQuantity i n "add" now).quantity := by
  refine ⟨?_, ?_, ?_, ?_, ?_, ?_⟩ <;>
    simp [updateQuantity, inventoryItemPreSave] <;>
    first
      | exact le_max_left 0 _
      | exact add_nonneg hq hn

/-- Witness for `updateQuantity_clamps` at a concrete item and input. -/
theorem updateQuantity_clamps_witness :
    (updateQuantity sampleLowItem 3 "subtract" 0).quantity
        = max 0 (sampleLowItem.quantity - 3) ∧
    (updateQuantity sampleLowItem 3 "set" 0).quantity = max 0 3 ∧
    (updateQuantity sampleLowItem 3 "add" 0).quantity = sampleLowItem.quantity + 3 ∧
    0 ≤ (updateQuantity sampleLowItem 3 "subtract" 0).quantity ∧
    0 ≤ (updateQuantity sampleLowItem 3 "set" 0).quantity ∧
    0 ≤ (updateQuantity sampleLowItem 3 "add" 0).quantity :=
  updateQuantity_clamps sampleLowItem 3 0 (by decide) (by decide)

/-- C5: restore succeeds exactly when the status is not `open`; on success it
clears `closingCash`, `closedBy`, `verifiedBy`, `verifiedAt`, zeroes the card,
total and cash sales, resets `expectedCash` to `openingCash`, and reopens the
close; when already `open` it fails and the stored record is unchanged. -/
theorem restore_resets_fields (c : CashClose) :
    (restoreCashCloseRoute c = if c.status = "open"
        then .error "El cierre de caja ya está abierto"
        else .ok (restoreCashClose c)) ∧
    storedAfter c (restoreCashCloseRoute c) =
      (if c.status = "open" then c else restoreCashClose c) ∧
    (restoreCashClose c).closingCash = none ∧
    (restoreCashClose c).closedBy = none ∧
    (restoreCashClose c).verifiedBy = none ∧
    (restoreCashClose c).verifiedAt = none ∧
    (restoreCashClose c).sales.card = 0 ∧
    (restoreCashClose c).sales.total = 0 ∧
    (restoreCashClose c).sales.cash = 0 ∧
    (restoreCashClose c).expectedCash = some c.openingCash ∧
    (restoreCashClose c).status = "open" := by
  refine ⟨rfl, ?_, rfl, rfl, rfl, rfl, rfl, rfl, rfl, rfl, rfl⟩
  by_cases h : c.status = "open" <;> simp [restoreCashCloseRoute, storedAfter, h]

/-- C6: closing a cash close whose status is not `open` fails with a client
error and leaves the record unchanged, and verifying one whose status is not
`closed` fails with a client error and leaves the record unchanged. -/
theorem invalid_state_close_verify (c : CashClose) (orders : List Order) (r : Nat)
    (startOfDay endOfDay : Nat) (body : CloseBody) (u v : Nat) (now : Nat) :
    (c.status ≠ "open" →
      (∃ msg, closeCashRoute c orders r startOfDay endOfDay body u = .error msg) ∧
      storedAfter c (closeCashRoute c orders r startOfDay endOfDay body u) = c) ∧
    (c.status ≠ "closed" →
      (∃ msg, verifyCashCloseRoute c v now = .error msg) ∧
      storedAfter c (verifyCashCloseRoute c v now) = c) := by
  constructor
  · intro h
    constructor
    · exact ⟨"El cierre de caja no está abierto", by simp [closeCashRoute, h]⟩
    · simp [storedAfter, closeCashRoute, h]
  · intro h
    constructor
    · exact ⟨"El cierre de caja debe estar cerrado para ser verificado",
        by simp [verifyCashCloseRoute, h]⟩
    · simp [storedAfter, verifyCashCloseRoute, h]

/-- Witness for `invalid_state_close_verify` at a verified cash close (whose
status is neither `open` nor `closed`). -/
theorem invalid_state_close_verify_witness :
    ((∃ msg, closeCashRoute sampleVerifiedCashClose [] 1 0 100 sampleCloseBody 7
        = .error msg) ∧
      storedAfter sampleVerifiedCashClose
        (closeCashRoute sampleVerifiedCashClose [] 1 0 100 sampleCloseBody 7)
        = sampleVerifiedCashClose) ∧
    ((∃ msg, verifyCashCloseRoute sampleVerifiedCashClose 9 0 = .error msg) ∧
      storedAfter sampleVerifiedCashClose
        (verifyCashCloseRoute sampleVerifiedCashClose 9 0)
        = sampleVerifiedCashClose) :=
  ⟨(invalid_state_close_verify sampleVerifiedCashClose [] 1 0 100 sampleCloseBody 7 9 0).1
      (by decide),
    (invalid_state_close_verify sampleVerifiedCashClose [] 1 0 100 sampleCloseBody 7 9 0).2
      (by decide)⟩

/-- C9 (amended): a historical series with fewer than 2 data points makes
`calculateProjections` report 0 (not the simple average) as the next-period
estimate, with trend `stable` and confidence `low`. -/
theorem projections_short_series (data : List ProjPoint) (p : String)
    (h : data.length < 2) :
    calculateProjections data p =
      { nextPeriod := 0, trend := "stable", confidence := "low", slope := none } := by
  simp [calculateProjections, h]

/-- Witness for `projections_short_series` at a one-point series. -/
theorem projections_short_series_witness :
    calculateProjections singlePoint "daily" =
      { nextPeriod := 0, trend := "stable", confidence := "low", slope := none } :=
  projections_short_series singlePoint "daily" (by decide)

/-- C9 (counterexample): on the one-point series with revenue 10 the claim
says the next-period estimate is the simple average 10, but
`calculateProjections` returns 0. -/
theorem projections_single_point_not_average :
    (calculateProjections singlePoint "daily").nextPeriod = 0 ∧
    specSimpleAverage singlePoint = 10 ∧
    (calculateProjections singlePoint "daily").nextPeriod ≠ specSimpleAverage singlePoint := by
  have h1 : (calculateProjections singlePoint "daily").nextPeriod = 0 := rfl
  have h2 : specSimpleAverage singlePoint = 10 := by
    simp [specSimpleAverage, singlePoint]
  refine ⟨h1, h2, ?_⟩
  rw [h1, h2]
  norm_num

/-- Effect of `updateStatus` on the inventory collection when the new status
is `preparing` or `delivered`: the decrement loop runs exactly when the
decrement timestamp is unset. -/
theorem updateStatus_prepDeliv_inv (o : Order) (inv : Nat → Int) (s : String)
    (now : Nat) (g : String) (hs : s = "preparing" ∨ s = "delivered") :
    (updateStatus o inv s now g).2 =
      if o.inventoryDecrementedAt = none then decrementInventory inv o.items else inv := by
  rcases hs with rfl | rfl <;>
    by_cases hm : o.inventoryDecrementedAt = none <;>
    simp [updateStatus, hm]

/-- Effect of `updateStatus` on the decrement timestamp when the new status is
`preparing` or `delivered`: it is set when it was unset, and kept otherwise. -/
theorem updateStatus_prepDeliv_marker (o : Order) (inv : Nat → Int) (s : String)
    (now : Nat) (g : String) (hs : s = "preparing" ∨ s = "delivered") :
    (updateStatus o inv s now g).1.inventoryDecrementedAt =
      if o.inventoryDecrementedAt = none then some now else o.inventoryDecrementedAt := by
  rcases hs with rfl | rfl <;>
    by_cases hm : o.inventoryDecrementedAt = none <;>
    by_cases hc : o.completedAt = none <;>
    simp [updateStatus, orderPreSave, hm, hc]

/-- Effect of cancellation on the inventory collection: the restore loop runs
exactly when the decrement timestamp was set. -/
theorem updateStatus_cancel_inv (o : Order) (inv : Nat → Int) (now : Nat) (g : String) :
    (updateStatus o inv "cancelled" now g).2 =
      if o.inventoryDecrementedAt = none then inv else restoreInventory inv o.items := by
  by_cases hm : o.inventoryDecrementedAt = none <;> simp [updateStatus, hm]

/-- Cancellation always leaves the decrement timestamp unset. -/
theorem updateStatus_cancel_marker (o : Order) (inv : Nat → Int) (now : Nat) (g : String) :
    (updateStatus o inv "cancelled" now g).1.inventoryDecrementedAt = none := by
  by_cases hm : o.inventoryDecrementedAt = none <;>
    simp [updateStatus, orderPreSave, hm]

/-- Cancellation always clears the order's active flag. -/
theorem updateStatus_cancel_active (o : Order) (inv : Nat → Int) (now : Nat) (g : String) :
    (updateStatus o inv "cancelled" now g).1.isActive = false := by
  by_cases hm : o.inventoryDecrementedAt = none <;>
    simp [updateStatus, orderPreSave, hm]

/-- A bad `buildOrderItems` input always aborts the loop with one of the two
client errors. -/
theorem buildOrderItems_error_of_bad (db : List InventoryItem) (r : Nat)
    (l : List ReqItem) (h : ∃ it ∈ l, badLine db r it) :
    ∃ e, buildOrderItems db r l = .error e := by
  induction l with
  | nil => simp at h
  | cons it rest ih =>
    obtain ⟨a, ha, hbad⟩ := h
    rcases List.mem_cons.mp ha with rfl | ha
    · rcases hbad with hnone | ⟨inv, hfind, hlt⟩
      · exact ⟨.notFound a.inventoryItem, by simp [buildOrderItems, hnone]⟩
      · exact ⟨.insufficientStock inv.name inv.quantity,
          by simp [buildOrderItems, hfind, hlt]⟩
    · cases hfound : findInventoryItem db r it.inventoryItem with
      | none => exact ⟨.notFound it.inventoryItem, by simp [buildOrderItems, hfound]⟩
      | some inv =>
        by_cases hlt : inv.quantity < it.quantity
        · exact ⟨.insufficientStock inv.name inv.quantity,
            by simp [buildOrderItems, hfound, hlt]⟩
        · obtain ⟨e, he⟩ := ih ⟨a, ha, hbad⟩
          exact ⟨e, by simp [buildOrderItems, hfound, hlt, he]⟩

/-- C1: closing an open cash close stores `sales.total` as the day's
delivered-order total, `sales.cash` as that total minus the reported card
sales, `totalExpenses` as the sum of the expense amounts, `expectedCash` as
`openingCash + sales.cash − totalExpenses`, and `difference` as `closingCash −
expectedCash`; the intermediate `(closingCash + cardSales) − systemSales`
difference does not survive in the stored record. -/
theorem closeCash_reconciliation (c : CashClose) (orders : List Order) (r : Nat)
    (startOfDay endOfDay : Nat) (body : CloseBody) (userId : Nat)
    (h : c.status = "open") :
    ∃ c1, closeCashRoute c orders r startOfDay endOfDay body userId = .ok c1 ∧
      c1.sales.total = deliveredTotal orders r startOfDay endOfDay ∧
      c1.sales.cash = deliveredTotal orders r startOfDay endOfDay - body.cardSales ∧
      c1.totalExpenses = sumExpenseAmounts body.expenses ∧
      c1.expectedCash = some (c.openingCash +
        (deliveredTotal orders r startOfDay endOfDay - body.cardSales) -
        sumExpenseAmounts body.expenses) ∧
      c1.difference = some (body.closingCash - (c.openingCash +
        (deliveredTotal orders r startOfDay endOfDay - body.cardSales) -
        sumExpenseAmounts body.expenses)) := by
  have hroute : closeCashRoute c orders r startOfDay endOfDay body userId =
      .ok (closeCash c
        { closingCash := body.closingCash, cardSales := body.cardSales,
          totalSalesFromOrders := deliveredTotal orders r startOfDay endOfDay,
          expenses := some body.expenses, notes := body.notes } userId) := by
    simp [closeCashRoute, h]
  exact ⟨_, hroute, rfl, rfl, rfl, rfl, rfl⟩

/-- Witness for `closeCash_reconciliation` at a concrete open cash close. -/
theorem closeCash_reconciliation_witness :
    ∃ c1, closeCashRoute sampleOpenCashClose [sampleDeliveredOrder] 1 0 100
        sampleCloseBody 7 = .ok c1 ∧
      c1.sales.total = deliveredTotal [sampleDeliveredOrder] 1 0 100 ∧
      c1.sales.cash = deliveredTotal [sampleDeliveredOrder] 1 0 100
        - sampleCloseBody.cardSales ∧
      c1.totalExpenses = sumExpenseAmounts sampleCloseBody.expenses ∧
      c1.expectedCash = some (sampleOpenCashClose.openingCash +
        (deliveredTotal [sampleDeliveredOrder] 1 0 100 - sampleCloseBody.cardSales) -
        sumExpenseAmounts sampleCloseBody.expenses) ∧
      c1.difference = some (sampleCloseBody.closingCash -
        (sampleOpenCashClose.openingCash +
          (deliveredTotal [sampleDeliveredOrder] 1 0 100 - sampleCloseBody.cardSales) -
          sumExpenseAmounts sampleCloseBody.expenses)) :=
  closeCash_reconciliation sampleOpenCashClose [sampleDeliveredOrder] 1 0 100
    sampleCloseBody 7 rfl

/-- C2: a status update to `preparing` or `delivered` decrements each
referenced inventory quantity by the line's ordered quantity and sets the
decrement timestamp exactly when that timestamp was unset, leaves inventory
untouched when it was already set, and a second such update never decrements
again. -/
theorem inventory_decrement_once (o : Order) (inv : Nat → Int) (s s1 : String)
    (now now1 : Nat) (g g1 : String)
    (hs : s = "preparing" ∨ s = "delivered")
    (hs1 : s1 = "preparing" ∨ s1 = "delivered") :
    ((updateStatus o inv s now g).2 =
      if o.inventoryDecrementedAt = none
        then (fun j => inv j - linesQty o.items j) else inv) ∧
    ((updateStatus o inv s now g).1.inventoryDecrementedAt =
      if o.inventoryDecrementedAt = none then some now else o.inventoryDecrementedAt) ∧
    (updateStatus (updateStatus o inv s now g).1 (updateStatus o inv s now g).2
        s1 now1 g1).2
      = (updateStatus o inv s now g).2 := by
  refine ⟨?_, updateStatus_prepDeliv_marker o inv s now g hs, ?_⟩
  · rw [updateStatus_prepDeliv_inv o inv s now g hs]
    by_cases hm : o.inventoryDecrementedAt = none <;> simp [hm]
    funext j
    exact decrementInventory_apply inv o.items j
  · rw [updateStatus_prepDeliv_inv _ _ s1 now1 g1 hs1]
    have hmk : (updateStatus o inv s now g).1.inventoryDecrementedAt ≠ none := by
      rw [updateStatus_prepDeliv_marker o inv s now g hs]
      by_cases hm : o.inventoryDecrementedAt = none <;> simp [hm]
    simp [hmk]

/-- Witness for `inventory_decrement_once` at a concrete order with unset
decrement timestamp. -/
theorem inventory_decrement_once_witness :
    ((updateStatus sampleOrder sampleInv "preparing" 60 "n1").2 =
      if sampleOrder.inventoryDecrementedAt = none
        then (fun j => sampleInv j - linesQty sampleOrder.items j) else sampleInv) ∧
    ((updateStatus sampleOrder sampleInv "preparing" 60 "n1").1.inventoryDecrementedAt =
      if sampleOrder.inventoryDecrementedAt = none then some 60
      else sampleOrder.inventoryDecrementedAt) ∧
    (updateStatus (updateStatus sampleOrder sampleInv "preparing" 60 "n1").1
        (updateStatus sampleOrder sampleInv "preparing" 60 "n1").2 "delivered" 70 "n2").2
      = (updateStatus sampleOrder sampleInv "preparing" 60 "n1").2 :=
  inventory_decrement_once sampleOrder sampleInv "preparing" "delivered" 60 70 "n1" "n2"
    (Or.inl rfl) (Or.inr rfl)

/-- C3: cancelling an order restores each referenced inventory quantity by the
line's ordered quantity exactly when the decrement timestamp was set, always
clears that timestamp and the active flag, and a second cancellation restores
nothing further. -/
theorem cancellation_restores_inventory (o : Order) (inv : Nat → Int)
    (now now1 : Nat) (g g1 : String) :
    ((updateStatus o inv "cancelled" now g).2 =
      if o.inventoryDecrementedAt = none then inv
      else (fun j => inv j + linesQty o.items j)) ∧
    (updateStatus o inv "cancelled" now g).1.inventoryDecrementedAt = none ∧
    (updateStatus o inv "cancelled" now g).1.isActive = false ∧
    (updateStatus (updateStatus o inv "cancelled" now g).1
        (updateStatus o inv "cancelled" now g).2 "cancelled" now1 g1).2
      = (updateStatus o inv "cancelled" now g).2 := by
  refine ⟨?_, updateStatus_cancel_marker o inv now g,
    updateStatus_cancel_active o inv now g, ?_⟩
  · rw [updateStatus_cancel_inv]
    by_cases hm : o.inventoryDecrementedAt = none <;> simp [hm]
    funext j
    exact restoreInventory_apply inv o.items j
  · rw [updateStatus_cancel_inv]
    simp [updateStatus_cancel_marker]

/-- C4: an order-creation request containing a line whose inventory item is
missing (in the tenant, active) or whose quantity exceeds stock fails with one
of the two client errors, persists no order, and leaves the inventory
collection unchanged. -/
theorem postOrder_no_partial_write (db : List InventoryItem) (r userId : Nat)
    (body : CreateOrderBody) (now : Nat) (g : String)
    (h : ∃ it ∈ body.items, badLine db r it) :
    (∃ e, (postOrder db r userId body now g).1 = .error e) ∧
    (postOrder db r userId body now g).2 = db := by
  obtain ⟨e, he⟩ := buildOrderItems_error_of_bad db r body.items h
  refine ⟨⟨e, by simp [postOrder, he]⟩, ?_⟩
  cases hb : buildOrderItems db r body.items <;> simp [postOrder, hb]

/-- Witness for `postOrder_no_partial_write` at a request asking for 5 units
of an item with 3 in stock. -/
theorem postOrder_no_partial_write_witness :
    (∃ e, (postOrder sampleDb 1 7 sampleBadBody 0 "n3").1 = .error e) ∧
    (postOrder sampleDb 1 7 sampleBadBody 0 "n3").2 = sampleDb :=
  postOrder_no_partial_write sampleDb 1 7 sampleBadBody 0 "n3"
    ⟨{ inventoryItem := 1, quantity := 5 }, by decide,
      Or.inr ⟨sampleDbItem, by decide, by decide⟩⟩

end Expoandes
